import Mathlib

/-!
Verification of the overseerr Telegram bot (bot.py, overseerr_client.py,
config.py) against its natural-language specification.

The Python code is shallowly embedded: JSON/Python values become the
inductive type PyVal, dictionary access and truthiness follow Python
semantics, fallible attribute access (calling .get on a non-dict) is
modelled in the Except monad, and the two chat handlers are modelled as
pure functions from their inputs (caller identity, message text, upstream
responses supplied as oracles) to the ordered list of observable effects
(messages sent, upstream calls issued, keyboard edits).
-/

set_option maxHeartbeats 1000000

/-- A Python/JSON value as manipulated by bot.py: None, bool, int, str,
list, or dict (an insertion-ordered association list, as in Python 3.7+).
Floats do not occur in any payload relevant to the verified claims and are
omitted. -/
inductive PyVal where
  | none
  | bool (b : Bool)
  | int (n : Int)
  | str (s : String)
  | list (xs : List PyVal)
  | dict (kvs : List (String × PyVal))
deriving Repr, Inhabited

/-- Python truthiness: None, False, 0, "", [], {} are falsy. -/
def truthy : PyVal → Bool
  | .none => false
  | .bool b => b
  | .int n => n != 0
  | .str s => s != ""
  | .list xs => !xs.isEmpty
  | .dict kvs => !kvs.isEmpty

/-- Python x or y (value-returning, with Python truthiness). -/
def pyOr (a b : PyVal) : PyVal := if truthy a then a else b

/-- Whether a value is a dict (isinstance(x, dict)). -/
def isDict : PyVal → Bool
  | .dict _ => true
  | _ => false

/-- Whether a value is a list (isinstance(x, list)). -/
def isList : PyVal → Bool
  | .list _ => true
  | _ => false

/-- Whether a value is None (x is None). -/
def isNoneV : PyVal → Bool
  | .none => true
  | _ => false

/-- Lookup of a key in an association list, first match wins. Distinguishes
a missing key from a key stored with value None. -/
def assocFind (kvs : List (String × PyVal)) (k : String) : Option PyVal :=
  match kvs with
  | [] => Option.none
  | (k', v) :: rest => if k' = k then some v else assocFind rest k

/-- Python d.get(k) on a value known to be a dict; returns None when the key
is missing. On a non-dict it returns None, so it may only be used where the
source guards the receiver (isinstance checks); elsewhere use pyGetE. -/
def pyGetD (d : PyVal) (k : String) : PyVal :=
  match d with
  | .dict kvs => (assocFind kvs k).getD .none
  | _ => .none

/-- Python d.get(k) with exception semantics: calling .get on a non-dict
raises AttributeError, modelled as an Except error. -/
def pyGetE (d : PyVal) (k : String) : Except String PyVal :=
  match d with
  | .dict kvs => .ok ((assocFind kvs k).getD .none)
  | _ => .error "AttributeError: object has no attribute get"

/-- Python d.get(k, default): the stored value (even None) when the key is
present, the default when it is missing. Receiver must be a dict. -/
def pyGetDefault (d : PyVal) (k : String) (dflt : PyVal) : PyVal :=
  match d with
  | .dict kvs => (assocFind kvs k).getD dflt
  | _ => dflt

/-- Python k in d for a dict receiver. -/
def pyHasKey (d : PyVal) (k : String) : Bool :=
  match d with
  | .dict kvs => (assocFind kvs k).isSome
  | _ => false

/-- Python str(x) for the value shapes that occur in bot.py. -/
def pyStr : PyVal → String
  | .none => "None"
  | .bool b => if b then "True" else "False"
  | .int n => toString n
  | .str s => s
  | .list _ => "[...]"
  | .dict _ => "{...}"

/-- Python x == "lit" where the right-hand side is a string literal: only a
str compares equal to a str. -/
def pyEqStr (v : PyVal) (s : String) : Bool :=
  match v with
  | .str t => t == s
  | _ => false

/-- Python s.upper() for the ASCII strings that status values carry,
written over the character list so that it reduces in the kernel
(String.toUpper is extensionally the same map but does not reduce). -/
def pyUpper (s : String) : String := String.mk (s.data.map Char.toUpper)

/-- Python str.strip(): drop leading and trailing whitespace, over the
character list so that it reduces in the kernel (String.trim does not). -/
def pyTrim (s : String) : String :=
  String.mk (((s.data.dropWhile Char.isWhitespace).reverse.dropWhile
    Char.isWhitespace).reverse)

/-- Whether the first character list is a prefix of the second. -/
def listPre : List Char → List Char → Bool
  | [], _ => true
  | _ :: _, [] => false
  | a :: as, b :: bs => a == b && listPre as bs

/-- Python s.startswith(p), over character lists (String.startsWith does
not reduce in the kernel). -/
def strStarts (s p : String) : Bool := listPre p.data s.data

/-- Python s.split(sep) for a one-character separator, over character lists
(String.splitOn does not reduce in the kernel). -/
def splitOnChar (c : Char) : List Char → List (List Char)
  | [] => [[]]
  | x :: xs =>
      let r := splitOnChar c xs
      if x == c then [] :: r
      else
        match r with
        | [] => [[x]]
        | h :: t => (x :: h) :: t

/-- The numeric value of a decimal digit string (caller checks digits). -/
def natOfDigits (l : List Char) : Nat :=
  l.foldl (fun acc c => acc * 10 + (c.toNat - 48)) 0

/-- Python s1 or s2 on two strings (empty string is falsy). -/
def strOr (a b : String) : String := if a = "" then b else a

/-- Python int(s) on a string: strips whitespace, allows one sign, then
decimal digits; anything else raises ValueError (modelled as none). -/
def pyIntOfString (s : String) : Option Int :=
  let t := (pyTrim s).data
  let neg := strStarts (pyTrim s) "-"
  let core := if neg || strStarts (pyTrim s) "+" then t.drop 1 else t
  if core.isEmpty || !core.all Char.isDigit then Option.none
  else some (if neg then -(natOfDigits core : Int) else (natOfDigits core : Int))

/-- Python int(x) on a PyVal (used on item["id"]): ints pass through, bools
coerce, numeric strings parse, everything else raises. -/
def pyInt (v : PyVal) : Except String Int :=
  match v with
  | .int n => .ok n
  | .bool b => .ok (if b then 1 else 0)
  | .str s =>
      match pyIntOfString s with
      | some n => .ok n
      | Option.none => .error "ValueError: invalid literal for int"
  | _ => .error "TypeError: int() argument"

/-- Python dict.update(other): keys already present keep their position and
take the new value; new keys are appended in the order of other. -/
def dictUpdate (l r : List (String × PyVal)) : List (String × PyVal) :=
  l.map (fun kv => (kv.1, (assocFind r kv.1).getD kv.2)) ++
    r.filter (fun kv => (assocFind l kv.1).isNone)

/-- Python d[k] = v on a dict: replaces in place if the key exists, else
appends. -/
def dictSet (kvs : List (String × PyVal)) (k : String) (v : PyVal) :
    List (String × PyVal) :=
  if (assocFind kvs k).isSome then
    kvs.map (fun kv => if kv.1 = k then (kv.1, v) else kv)
  else kvs ++ [(k, v)]

/-! ## overseerr_client.py

Embedding of the upstream HTTP client. A call outcome is determined by the
HTTP response it receives, modelled as a Response (status code, reason
phrase, parsed JSON body). URL construction, the API-key header and the
aiohttp session only address the request and are not part of the outcome,
so the embedded functions take the Response directly. resp.raise_for_status
raises ClientResponseError carrying the status and the reason message for
every status of 400 and above. -/

/-- An upstream HTTP response as seen by overseerr_client.py. -/
structure Response where
  status : Nat
  reason : String
  body : PyVal
deriving Repr

/-- The error raised by resp.raise_for_status: status plus message. -/
structure ClientError where
  status : Nat
  message : String
deriving Repr, DecidableEq

/-- aiohttp resp.raise_for_status(): error for any status of 400 or more. -/
def raise_for_status (r : Response) : Except ClientError Unit :=
  if 400 ≤ r.status then .error ⟨r.status, r.reason⟩ else .ok ()

/-- OverseerrClient.get_movie_details: raise_for_status then the JSON body.
There is no 404 special case in the source. -/
def get_movie_details (r : Response) : Except ClientError PyVal := do
  raise_for_status r
  .ok r.body

/-- OverseerrClient.get_tv_details: raise_for_status then the JSON body. -/
def get_tv_details (r : Response) : Except ClientError PyVal := do
  raise_for_status r
  .ok r.body

/-- OverseerrClient.get_details: dispatch on media_type; any media type
other than movie or tv returns an empty dict without any request. -/
def get_details (media_type : String) (r : Response) :
    Except ClientError PyVal :=
  if media_type = "movie" then get_movie_details r
  else if media_type = "tv" then get_tv_details r
  else .ok (.dict [])

/-- OverseerrClient.get_ratings: 404 yields an empty dict before
raise_for_status is consulted; otherwise raise_for_status then body. -/
def get_ratings (r : Response) : Except ClientError PyVal :=
  if r.status = 404 then .ok (.dict [])
  else do
    raise_for_status r
    .ok r.body

/-- OverseerrClient.get_tv_recommendations: 404 yields an empty results
list; otherwise raise_for_status then body. -/
def get_tv_recommendations (r : Response) : Except ClientError PyVal :=
  if r.status = 404 then .ok (.dict [("results", .list [])])
  else do
    raise_for_status r
    .ok r.body

/-- OverseerrClient.get_movie_recommendations: 404 yields an empty results
list; otherwise raise_for_status then body. -/
def get_movie_recommendations (r : Response) : Except ClientError PyVal :=
  if r.status = 404 then .ok (.dict [("results", .list [])])
  else do
    raise_for_status r
    .ok r.body

/-! ## bot.py pure helpers -/

/-- bot._is_available: availability from mediaInfo.status. A string status
compares its uppercase form to AVAILABLE, an int status is available at 4
or more, anything else (including a missing status) is not available.
A Python bool status is an int instance, but both True >= 4 and False >= 4
are false, so the catch-all false branch coincides with the source. -/
def is_available (item : PyVal) : Except String Bool := do
  let mi ← pyGetE item "mediaInfo"
  let media_info := pyOr mi (.dict [])
  let status ← pyGetE media_info "status"
  match status with
  | .str s => .ok (pyUpper s == "AVAILABLE")
  | .int n => .ok (decide (4 ≤ n))
  | _ => .ok false

/-- bot._extract_title_year_type: camelCase then snake_case fallbacks,
title defaults to (untitled), media type defaults to movie, year is the
first four characters of the date when it is a string of length at least
four. -/
def extract_title_year_type (item : PyVal) :
    Except String (PyVal × Option String × String) := do
  let m1 ← pyGetE item "mediaType"
  let m2 ← pyGetE item "media_type"
  let media_type := pyOr m1 (pyOr m2 (.str "movie"))
  let t1 ← pyGetE item "title"
  let t2 ← pyGetE item "name"
  let title := pyOr t1 (pyOr t2 (.str "(untitled)"))
  let d1 ← pyGetE item "releaseDate"
  let d2 ← pyGetE item "firstAirDate"
  let d3 ← pyGetE item "release_date"
  let d4 ← pyGetE item "first_air_date"
  let date := pyOr d1 (pyOr d2 (pyOr d3 d4))
  let year :=
    match date with
    | .str s => if 4 ≤ s.length then some (s.take 4) else Option.none
    | _ => Option.none
  .ok (title, year, if pyEqStr media_type "movie" then "movie" else "tv series")

/-- bot._build_caption, as its list of lines before the newline join. -/
def build_caption_lines (item : PyVal) : Except String (List String) := do
  let tyt ← extract_title_year_type item
  let available ← is_available item
  let status_text := if available then "in library" else "not in library"
  let status_icon := if available then "✅" else "❌"
  .ok (["<b>" ++ pyStr tyt.1 ++ "</b> - (" ++ tyt.2.2 ++ ")"] ++
    (match tyt.2.1 with
     | some y => ["Year - " ++ y]
     | Option.none => []) ++
    ["", status_icon ++ " Status: " ++ status_text])

/-- bot._build_caption: the joined caption string. -/
def build_caption (item : PyVal) : Except String String :=
  (build_caption_lines item).map (String.intercalate "\n")

/-- The result dict of bot._extract_imdb_and_rt; each field is None or a
value exactly as the source stores it. -/
structure ExtractRes where
  imdb_id : PyVal
  imdb_rating : PyVal
  imdb_url : PyVal
  rt_tomato : PyVal
  rt_popcorn : PyVal
  rt_url : PyVal
deriving Repr

/-- Python maybe_url.rstrip("/").split("/")[-1]. -/
def lastPathSegment (u : String) : String :=
  ((splitOnChar '/' ((u.data.reverse.dropWhile (fun ch => ch == '/')).reverse)).map
    String.mk).getLastD ""

/-- The body of bot._extract_imdb_and_rt after the initial attribute
accesses: everything here is guarded by isinstance dict checks in the
source, so plain dict gets suffice. imdb_id0 and ratings are the values of
the source locals imdb_id and ratings right before the
isinstance(ratings, dict) test. Note the source computes, e.g.,
str(block.get("value")) or str(block.get("rating")): str(None) is the
truthy string None, so those or-chains never reach their fallbacks;
strOr reproduces this faithfully. -/
def extract_imdb_rt_core (imdb_id0 ratings : PyVal) : ExtractRes :=
  if isDict ratings then
    let imdb_block := pyOr (pyGetD ratings "imdb")
      (pyOr (pyGetD ratings "IMDb") (pyGetD ratings "imdbRating"))
    let ir :=
      match imdb_block with
      | .dict _ =>
          let rating := PyVal.str (strOr (pyStr (pyGetD imdb_block "value"))
            (strOr (pyStr (pyGetD imdb_block "rating"))
              (pyStr (pyGetD imdb_block "score"))))
          let id1 :=
            if !truthy imdb_id0 then
              match pyGetD imdb_block "url" with
              | .str u =>
                  if strStarts u "http" then PyVal.str (lastPathSegment u)
                  else imdb_id0
              | _ => imdb_id0
            else imdb_id0
          (rating, id1)
      | .int _ => (PyVal.str (pyStr imdb_block), imdb_id0)
      | .str _ => (PyVal.str (pyStr imdb_block), imdb_id0)
      | .bool _ => (PyVal.str (pyStr imdb_block), imdb_id0)
      | _ => (PyVal.none, imdb_id0)
    let imdb_rating := ir.1
    let imdb_id1 := ir.2
    let rt_block := pyOr (pyGetD ratings "rottenTomatoes")
      (pyOr (pyGetD ratings "rotten_tomatoes") (pyGetD ratings "rotten"))
    let tpu :=
      match rt_block with
      | .dict _ =>
          let criticsRaw := pyGetD rt_block "critics"
          let critics := if isDict criticsRaw then criticsRaw else PyVal.none
          let audienceRaw := pyGetD rt_block "audience"
          let audience := if isDict audienceRaw then audienceRaw else PyVal.none
          let tu :=
            if truthy critics then
              (PyVal.str (pyStr (pyOr (pyGetD critics "score")
                 (pyOr (pyGetD critics "rating") (pyGetD critics "value")))),
               pyGetD critics "url")
            else (PyVal.none, PyVal.none)
          let pu :=
            if truthy audience then
              (PyVal.str (pyStr (pyOr (pyGetD audience "score")
                 (pyOr (pyGetD audience "rating") (pyGetD audience "value")))),
               if !truthy tu.2 then pyGetD audience "url" else tu.2)
            else (PyVal.none, tu.2)
          let t2 :=
            if !truthy tu.1 then
              PyVal.str (strOr (pyStr (pyGetD rt_block "tomatometer"))
                (strOr (pyStr (pyGetD rt_block "tomatoMeter"))
                  (pyStr (pyGetD rt_block "criticsScore"))))
            else tu.1
          let p2 :=
            if !truthy pu.1 then
              PyVal.str (strOr (pyStr (pyGetD rt_block "audienceScore"))
                (pyStr (pyGetD rt_block "popcornMeter")))
            else pu.1
          let u3 := if !truthy pu.2 then pyGetD rt_block "url" else pu.2
          (t2, p2, u3)
      | _ => (PyVal.none, PyVal.none, PyVal.none)
    let flat :=
      if !(truthy tpu.1 || truthy tpu.2.1) then
        if pyHasKey ratings "criticsScore" || pyHasKey ratings "audienceScore" then
          let t := if !isNoneV (pyGetD ratings "criticsScore") then
              PyVal.str (pyStr (pyGetD ratings "criticsScore")) else tpu.1
          let p := if !isNoneV (pyGetD ratings "audienceScore") then
              PyVal.str (pyStr (pyGetD ratings "audienceScore")) else tpu.2.1
          let u :=
            if !truthy tpu.2.2 then
              match pyGetD ratings "url" with
              | .str s => PyVal.str s
              | _ => tpu.2.2
            else tpu.2.2
          (t, p, u)
        else tpu
      else tpu
    let imdb_url :=
      if truthy imdb_id1 then
        PyVal.str ("https://www.imdb.com/title/" ++ pyStr imdb_id1)
      else PyVal.none
    ⟨imdb_id1, imdb_rating, imdb_url, flat.1, flat.2.1, flat.2.2⟩
  else
    let imdb_url :=
      if truthy imdb_id0 then
        PyVal.str ("https://www.imdb.com/title/" ++ pyStr imdb_id0)
      else PyVal.none
    ⟨imdb_id0, PyVal.none, imdb_url, PyVal.none, PyVal.none, PyVal.none⟩

/-- bot._extract_imdb_and_rt: the initial attribute accesses (which raise
on a non-dict details or a truthy non-dict externalIds) followed by the
guarded core. -/
def extract_imdb_and_rt (details : PyVal) : Except String ExtractRes := do
  let e1 ← pyGetE details "externalIds"
  let e2 ← pyGetE details "external_ids"
  let ext := pyOr e1 (pyOr e2 (.dict []))
  let i1 ← pyGetE ext "imdbId"
  let i2 ← pyGetE ext "imdb_id"
  let imdb_id0 := pyOr i1 i2
  let r ← pyGetE details "ratings"
  let ratings := pyOr r (.dict [])
  .ok (extract_imdb_rt_core imdb_id0 ratings)

/-- Whether a value is a str (isinstance(x, str)). -/
def isStrV : PyVal → Bool
  | .str _ => true
  | _ => false

/-- First relatedVideos entry of the given type hosted on YouTube with a
string url; each entry's fields are fetched with .get, which raises on a
non-dict entry. -/
def find_related (pref : String) : List PyVal → Except String (Option String)
  | [] => .ok Option.none
  | v :: rest => do
      let url ← pyGetE v "url"
      let site ← pyGetE v "site"
      let ty ← pyGetE v "type"
      if pyEqStr site "YouTube" && pyEqStr ty pref && isStrV url then
        .ok (some (pyStr url))
      else find_related pref rest

/-- First relatedVideos entry on YouTube with a string url, any type. -/
def find_related_any : List PyVal → Except String (Option String)
  | [] => .ok Option.none
  | v :: rest => do
      let url ← pyGetE v "url"
      let site ← pyGetE v "site"
      if pyEqStr site "YouTube" && isStrV url then
        .ok (some (pyStr url))
      else find_related_any rest

/-- First TMDb-style videos.results entry of the given type on YouTube with
a truthy key, rendered as a youtu.be link. -/
def find_videos (pref : String) : List PyVal → Except String (Option String)
  | [] => .ok Option.none
  | v :: rest => do
      let site ← pyGetE v "site"
      let ty ← pyGetE v "type"
      let key ← pyGetE v "key"
      if pyEqStr site "YouTube" && pyEqStr ty pref && truthy key then
        .ok (some ("https://youtu.be/" ++ pyStr key))
      else find_videos pref rest

/-- First TMDb-style videos.results entry on YouTube with a truthy key. -/
def find_videos_any : List PyVal → Except String (Option String)
  | [] => .ok Option.none
  | v :: rest => do
      let site ← pyGetE v "site"
      let key ← pyGetE v "key"
      if pyEqStr site "YouTube" && truthy key then
        .ok (some ("https://youtu.be/" ++ pyStr key))
      else find_videos_any rest

/-- The TMDb videos fallback block at the end of bot._extract_trailer_url. -/
def fallback_videos (details : PyVal) : Except String (Option String) := do
  let v ← pyGetE details "videos"
  let videos := pyOr v (.dict [])
  let res := if isDict videos then pyGetD videos "results" else PyVal.none
  match res with
  | .list vs => do
      let r1 ← find_videos "Trailer" vs
      match r1 with
      | some u => .ok (some u)
      | Option.none => do
          let r2 ← find_videos "Teaser" vs
          match r2 with
          | some u => .ok (some u)
          | Option.none => find_videos_any vs
  | _ => .ok Option.none

/-- bot._extract_trailer_url: relatedVideos first (Trailer, then Teaser,
then any YouTube url), falling through to the TMDb videos structure. -/
def extract_trailer_url (details : PyVal) : Except String (Option String) := do
  let related ← pyGetE details "relatedVideos"
  match related with
  | .list vs => do
      let r1 ← find_related "Trailer" vs
      match r1 with
      | some u => .ok (some u)
      | Option.none => do
          let r2 ← find_related "Teaser" vs
          match r2 with
          | some u => .ok (some u)
          | Option.none => do
              let r3 ← find_related_any vs
              match r3 with
              | some u => .ok (some u)
              | Option.none => fallback_videos details
  | _ => fallback_videos details

/-- An HTML anchor as bot.py formats it. -/
def a_link (url label : String) : String :=
  "<a href=\"" ++ url ++ "\">" ++ label ++ "</a>"

/-- The IMDb line of bot._append_enrichment_to_caption (present only when
an IMDb url was derived; the rating is shown unless it is the literal
string None or nan). -/
def imdb_line_of (rates : ExtractRes) : List String :=
  if truthy rates.imdb_url then
    let label :=
      if !(truthy rates.imdb_rating && !pyEqStr rates.imdb_rating "None" &&
            !pyEqStr rates.imdb_rating "nan") then "IMDb"
      else "IMDb: " ++ pyStr rates.imdb_rating
    [a_link (pyStr rates.imdb_url) label]
  else []

/-- The Tomatometer line of bot._append_enrichment_to_caption (present
only when rt_tomato is truthy and not the literal string None or nan). -/
def tomato_line_of (rates : ExtractRes) : List String :=
  let rt_url := pyOr rates.rt_url (.str "https://www.rottentomatoes.com/")
  if truthy rates.rt_tomato && !pyEqStr rates.rt_tomato "None" &&
      !pyEqStr rates.rt_tomato "nan" then
    [a_link (pyStr rt_url) ("🍅 Tomatometer : " ++ pyStr rates.rt_tomato ++ "%")]
  else []

/-- The Popcorn line of bot._append_enrichment_to_caption (present only
when rt_popcorn is truthy and not the literal string None or nan). -/
def popcorn_line_of (rates : ExtractRes) : List String :=
  let rt_url := pyOr rates.rt_url (.str "https://www.rottentomatoes.com/")
  if truthy rates.rt_popcorn && !pyEqStr rates.rt_popcorn "None" &&
      !pyEqStr rates.rt_popcorn "nan" then
    [a_link (pyStr rt_url) ("🍿 Popcorn: " ++ pyStr rates.rt_popcorn ++ "%")]
  else []

/-- The trailer block of bot._append_enrichment_to_caption: a blank line
plus the link when a trailer was found, nothing otherwise. -/
def trailer_block_of : Option String → List String
  | some t => ["", a_link t "🎬 Trailer"]
  | Option.none => []

/-- bot._append_enrichment_to_caption, at the level of caption lines: the
base caption lines, then the unconditional blank separator, then the IMDb
and Rotten Tomatoes lines that pass the None/nan filter, then the trailer
block (a blank line plus the link) when a trailer was found. -/
def append_enrichment_lines (base : List String) (details : PyVal) :
    Except String (List String) := do
  let rates ← extract_imdb_and_rt details
  let trailer ← extract_trailer_url details
  .ok (base ++ [""] ++ imdb_line_of rates ++ tomato_line_of rates ++
    popcorn_line_of rates ++ trailer_block_of trailer)

/-- bot._append_enrichment_to_caption on the joined caption string. -/
def append_enrichment_to_caption (base_caption : String) (details : PyVal) :
    Except String String :=
  (append_enrichment_lines [base_caption] details).map (String.intercalate "\n")

/-- An inline keyboard button: label text and callback data token. -/
structure Button where
  text : String
  callback_data : String
deriving Repr, DecidableEq

/-- An inline keyboard markup: a list of button rows. -/
abbrev Markup := List (List Button)

/-- bot._build_keyboard: no row at all when the id is missing; a Download
button when the item is not available; a Recommendations button when the
media type is tv or movie; no row when both are absent. -/
def build_keyboard (item : PyVal) : Except String (Option Markup) := do
  let m1 ← pyGetE item "mediaType"
  let m2 ← pyGetE item "media_type"
  let media_type := pyOr m1 (pyOr m2 (.str "movie"))
  let media_id ← pyGetE item "id"
  match media_id with
  | .none => .ok Option.none
  | _ => do
      let available ← is_available item
      let dl : List Button :=
        if !available then
          [⟨"⏬ Download", "req|" ++ pyStr media_type ++ "|" ++ pyStr media_id⟩]
        else []
      let rec_btns : List Button :=
        if pyEqStr media_type "tv" || pyEqStr media_type "movie" then
          [⟨"👀 Recommendations", "rec|" ++ pyStr media_type ++ "|" ++ pyStr media_id⟩]
        else []
      let buttons := dl ++ rec_btns
      if buttons.isEmpty then .ok Option.none else .ok (some [buttons])

/-- bot._is_owner: open access when no owner id is configured (unset or
empty); an unparseable configured id authorizes nobody; otherwise the
caller's id must equal the configured one (a missing caller never
matches). -/
def is_owner (owner_cfg : Option String) (user_id : Option Int) : Bool :=
  match owner_cfg with
  | Option.none => true
  | some cfg =>
      if cfg = "" then true
      else
        match pyIntOfString cfg with
        | some oid => user_id == some oid
        | Option.none => false

/-! ## Handlers as effect traces

The two chat handlers are modelled as pure functions from their inputs to
the ordered list of observable effects. Upstream results are supplied as
oracles: a function per endpoint family (details/ratings are called once
per rendered item), a single value for the one-shot search, create, approve
and recommendations calls of a turn. Chat-transport delivery (reply_text,
reply_photo, answer, edit_message_reply_markup) is modelled as succeeding;
the photo-failure fallback to text changes only which of the two send
effects carries the card. All card sends pass parse_mode HTML; plain
informational replies do not, which the html flag records. -/

inductive Effect where
  | reply_text (msg : String) (kb : Option Markup) (html : Bool)
  | reply_photo (url : String) (caption : String) (kb : Option Markup)
  | answer_callback
  | clear_markup
  | log_event (msg : String)
  | search_call (q : String)
  | details_call (mt : PyVal) (id : Int)
  | ratings_call (mt : PyVal) (id : Int)
  | recs_call (mt : String) (id : Int)
  | create_call (mediaId : Int) (mt : String) (is4k : Bool)
  | approve_call (reqId : PyVal) (is4k : Bool)
deriving Repr

/-- Effects that contact the upstream Overseerr service. -/
def is_client_call : Effect → Bool
  | .search_call _ => true
  | .details_call _ _ => true
  | .ratings_call _ _ => true
  | .recs_call _ _ => true
  | .create_call _ _ _ => true
  | .approve_call _ _ => true
  | _ => false

/-- Effects that render a result card (an HTML caption send, with or
without a poster photo). -/
def is_card : Effect → Bool
  | .reply_photo _ _ _ => true
  | .reply_text _ _ h => h
  | _ => false

/-- Number of rendered cards in a trace. -/
def card_count (l : List Effect) : Nat := (l.filter is_card).length

/-- The ratings-merge step of the enrichment block: when details already
holds a ratings dict it is updated in place, otherwise the ratings value is
stored under the ratings key; storing into a non-dict details raises inside
the inner try and is swallowed, leaving details unchanged. -/
def merge_ratings (d rts : PyVal) : PyVal :=
  match d, rts with
  | .dict kvs, .dict rkvs =>
      match (assocFind kvs "ratings").getD .none with
      | .dict ekvs => .dict (dictSet kvs "ratings" (.dict (dictUpdate ekvs rkvs)))
      | _ => .dict (dictSet kvs "ratings" (.dict rkvs))
  | _, _ => d

/-- The details+ratings fetch of one rendered item (the try blocks around
client.get_details and client.get_ratings): a missing or non-integer id
skips the fetch, a details failure degrades to an empty details dict, a
ratings failure keeps the bare details, a nonempty ratings dict is merged.
Returns the client-call effects issued and the resulting details value. -/
def fetch_details (dOf rOf : PyVal → Int → Except String PyVal)
    (mtv : PyVal) (item : PyVal) : List Effect × PyVal :=
  match pyGetD item "id" with
  | .none => ([], .dict [])
  | idv =>
      match pyInt idv with
      | .error _ => ([], .dict [])
      | .ok n =>
          match dOf mtv n with
          | .error _ => ([.details_call mtv n], .dict [])
          | .ok d =>
              match rOf mtv n with
              | .error _ => ([.details_call mtv n, .ratings_call mtv n], d)
              | .ok rts =>
                  ([.details_call mtv n, .ratings_call mtv n],
                   if isDict rts && truthy rts then merge_ratings d rts else d)

/-- The send step of one rendered card: a failed caption enrichment or
keyboard build is an uncaught exception (no send); otherwise one photo or
text send carries the caption and keyboard (HTML parse mode). -/
def send_phase (img : String) (poster : PyVal) (cap : Except String String)
    (kbr : Except String (Option Markup)) : List Effect × Option String :=
  match cap with
  | .error m => ([], some m)
  | .ok caption =>
      match kbr with
      | .error m => ([], some m)
      | .ok kb =>
          if truthy poster then
            ([.reply_photo (img ++ pyStr poster) caption kb], Option.none)
          else ([.reply_text caption kb true], Option.none)

/-- One iteration of the card-rendering loop shared by on_query and the
recommendations branch of on_callback: poster lookup, base caption,
enrichment fetch, caption enrichment (only when details is nonempty),
keyboard construction, then one send (the send_phase). kb_item is the dict
the keyboard is built from (the item itself in on_query; the item overlaid
with the originating mediaType in the recommendations branch). The second
component reports an uncaught exception after the listed effects. -/
def item_effects (dOf rOf : PyVal → Int → Except String PyVal) (img : String)
    (mtv : PyVal) (item kb_item : PyVal) : List Effect × Option String :=
  if isDict item then
    let poster := pyOr (pyGetD item "posterPath") (pyGetD item "poster_path")
    match build_caption_lines item with
    | .error m => ([], some m)
    | .ok base =>
        let base_caption := String.intercalate "\n" base
        let fd := fetch_details dOf rOf mtv item
        let sp := send_phase img poster
          (if truthy fd.2 then append_enrichment_to_caption base_caption fd.2
           else .ok base_caption)
          (build_keyboard kb_item)
        (fd.1 ++ sp.1, sp.2)
  else ([], some "AttributeError: object has no attribute get")

/-- The per-item media type used by on_query (per-result, defaulting to
movie). -/
def item_media_type (item : PyVal) : PyVal :=
  pyOr (pyGetD item "mediaType") (pyOr (pyGetD item "media_type") (.str "movie"))

/-- The on_query rendering loop; an uncaught exception in an iteration
aborts the handler, keeping the effects already produced. -/
def query_loop (dOf rOf : PyVal → Int → Except String PyVal) (img : String) :
    List PyVal → List Effect
  | [] => []
  | item :: rest =>
      match item_effects dOf rOf img (item_media_type item) item item with
      | (effs, Option.none) => effs ++ query_loop dOf rOf img rest
      | (effs, some _) => effs

/-- The movie/tv filter of on_query line 261. -/
def is_movie_tv (r : PyVal) : Bool :=
  let mt := pyOr (pyGetD r "mediaType") (pyGetD r "media_type")
  pyEqStr mt "movie" || pyEqStr mt "tv"

/-- on_query lines 261-264: restrict to movie/tv results, fall back to the
unfiltered list when that empties it, and render at most ten. -/
def select_results (results : List PyVal) : List PyVal :=
  (if (results.filter is_movie_tv).isEmpty then results
   else results.filter is_movie_tv).take 10

/-- bot.on_query as an effect trace: owner gate (silent drop), empty-query
short-circuit, search call, error/no-result messages, then the rendering
loop over the selected results. A non-dict search payload or a truthy
non-list results value raises out of the handler, producing no further
effects. -/
def on_query (owner_cfg : Option String) (user_id : Option Int)
    (text : Option String) (searchRes : Except String PyVal)
    (dOf rOf : PyVal → Int → Except String PyVal) (img : String) :
    List Effect :=
  if !is_owner owner_cfg user_id then []
  else
    if pyTrim (text.getD "") = "" then
      [.reply_text "Empty query. Please enter a title." Option.none false]
    else
      .search_call (pyTrim (text.getD "")) ::
      match searchRes with
      | .error e =>
          [.log_event "Search failed",
           .reply_text ("Overseerr search error: " ++ e) Option.none false]
      | .ok data =>
          match data with
          | .dict _ =>
              match pyOr (pyGetD data "results") (.list []) with
              | .list results =>
                  if results.isEmpty then
                    [.reply_text "No results found." Option.none false]
                  else query_loop dOf rOf img (select_results results)
              | _ => []
          | _ => []

/-- The request-id extraction of bot.on_callback lines 377-380: the
top-level id field when truthy, else request.id (where a non-dict request
value raises, caught by the surrounding try). -/
def request_id_of (created : PyVal) : Except String PyVal :=
  let a := if isDict created then pyGetD created "id" else .none
  if truthy a then .ok a
  else
    if isDict created then pyGetE (pyGetDefault created "request" (.dict [])) "id"
    else .ok .none

/-- Python data.split(sep, 2) unpacked into three names; fails (ValueError)
with fewer than three parts. -/
def split3 (s : String) : Option (String × String × String) :=
  match (splitOnChar '|' s.data).map String.mk with
  | a :: b :: c :: rest => some (a, b, String.intercalate "|" (c :: rest))
  | _ => Option.none

/-- The Download branch of bot.on_callback (lines 366-390): unparseable id
clears the buttons and reports Invalid identifier with no client call; a
create failure is reported leaving the buttons; a create success approves
when a request id was found (approve failure only logged) and always clears
the buttons and confirms. -/
def req_branch (is4k : Bool) (mt idstr : String)
    (createRes approveRes : Except String PyVal) : List Effect :=
  match pyIntOfString idstr with
  | Option.none => [.clear_markup, .reply_text "Invalid identifier." Option.none false]
  | some n =>
      .create_call n mt is4k ::
      match createRes with
      | .error e =>
          [.log_event "Request failed",
           .reply_text ("Request error: " ++ e) Option.none false]
      | .ok created =>
          match request_id_of created with
          | .error m =>
              [.log_event "Request failed",
               .reply_text ("Request error: " ++ m) Option.none false]
          | .ok rid =>
              (match rid with
               | .none => []
               | _ =>
                   .approve_call rid is4k ::
                   (match approveRes with
                    | .error _ => [.log_event "Approve failed"]
                    | .ok _ => [])) ++
              [.clear_markup,
               .reply_text "Request submitted and approved ✅" Option.none false]

/-- The rendering loop of the recommendations branch; an uncaught exception
in an iteration is caught by the surrounding try and reported as a
Recommendations error after the effects already produced. -/
def rec_loop (dOf rOf : PyVal → Int → Except String PyVal) (img : String)
    (mt : String) : List PyVal → List Effect
  | [] => []
  | item :: rest =>
      match item_effects dOf rOf img (.str mt) item
          (match item with
           | .dict kvs => PyVal.dict (dictSet kvs "mediaType" (.str mt))
           | _ => item) with
      | (effs, Option.none) => effs ++ rec_loop dOf rOf img mt rest
      | (effs, some m) =>
          effs ++ [.log_event "Recommendations failed",
                   .reply_text ("Recommendations error: " ++ m) Option.none false]

/-- The Recommendations branch of bot.on_callback (lines 310-363):
unparseable id reports Invalid identifier (buttons untouched) with no
client call; endpoint chosen by media type (tv, else movie); empty results
report No recommendations found; otherwise up to ten items are rendered,
each tagged with the originating media type. -/
def rec_branch (dOf rOf : PyVal → Int → Except String PyVal) (img : String)
    (mt idstr : String) (recRes : Except String PyVal) : List Effect :=
  match pyIntOfString idstr with
  | Option.none => [.reply_text "Invalid identifier." Option.none false]
  | some n =>
      .recs_call (if mt = "tv" then "tv" else "movie") n ::
      match recRes with
      | .error e =>
          [.log_event "Recommendations failed",
           .reply_text ("Recommendations error: " ++ e) Option.none false]
      | .ok recv =>
          match recv with
          | .dict _ =>
              match pyOr (pyGetD recv "results") (.list []) with
              | .list results =>
                  if results.isEmpty then
                    [.reply_text "No recommendations found." Option.none false]
                  else rec_loop dOf rOf img mt (results.take 10)
              | _ =>
                  [.log_event "Recommendations failed",
                   .reply_text "Recommendations error: TypeError" Option.none false]
          | _ =>
              [.log_event "Recommendations failed",
               .reply_text "Recommendations error: AttributeError" Option.none false]

/-- bot.on_callback as an effect trace: unauthorized taps are acknowledged
silently; otherwise the tap is acknowledged and the req or rec branch runs
on the unpacked token (a token that does not unpack into three parts raises
out of the handler). -/
def on_callback (owner_cfg : Option String) (user_id : Option Int)
    (cbdata : Option String) (is4k : Bool)
    (dOf rOf : PyVal → Int → Except String PyVal)
    (recRes createRes approveRes : Except String PyVal)
    (img : String) : List Effect :=
  if !is_owner owner_cfg user_id then [.answer_callback]
  else
    .answer_callback ::
    (let d := cbdata.getD ""
     if strStarts d "req|" then
       match split3 d with
       | some t => req_branch is4k t.2.1 t.2.2 createRes approveRes
       | Option.none => []
     else if strStarts d "rec|" then
       match split3 d with
       | some t => rec_branch dOf rOf img t.2.1 t.2.2 recRes
       | Option.none => []
     else [])

/-- bot.start: refusal for a non-owner, prompt for the owner. -/
def on_start (owner_cfg : Option String) (user_id : Option Int) : List Effect :=
  if !is_owner owner_cfg user_id then
    [.reply_text "This bot is restricted to the owner." Option.none false]
  else [.reply_text "Send a movie or TV title." Option.none false]

/-! ## Specification-side definitions -/

/-- Modelled from the spec (claim C1): availability as a function of the
mediaInfo.status value alone — a string status is available iff its
uppercase form is AVAILABLE, an integer status iff it is at least 4, and a
missing or any other-shaped status is not available. This is the
specification side of the refinement; is_available is the code side. -/
def availability_spec : PyVal → Bool
  | .str s => pyUpper s == "AVAILABLE"
  | .int n => decide (4 ≤ n)
  | _ => false

/-- The mediaInfo.status value an item carries (None when absent). -/
def status_of (item : PyVal) : PyVal :=
  pyGetD (pyOr (pyGetD item "mediaInfo") (.dict [])) "status"

/-- Whether a keyboard contains the Download button. -/
def has_download : Option Markup → Bool
  | Option.none => false
  | some rows => rows.any (fun row => row.any (fun b => b.text == "⏬ Download"))

/-- Whether a keyboard contains the Recommendations button. -/
def has_recs : Option Markup → Bool
  | Option.none => false
  | some rows => rows.any (fun row => row.any (fun b => b.text == "👀 Recommendations"))

/-! ## Claim theorems -/

/-- C2, counterexample. The claim states that an upstream 404 to getDetails
is returned as an empty result rather than raised: at a concrete 404
response, get_details (via get_movie_details, which has no 404 handling)
returns an error carrying the status, not an empty dict, and likewise for
get_tv_details. -/
theorem claim_c2_counterexample :
    get_details "movie" ⟨404, "Not Found", .dict []⟩ = .error ⟨404, "Not Found"⟩ ∧
    get_movie_details ⟨404, "Not Found", .dict []⟩ ≠ .ok (.dict []) ∧
    get_tv_details ⟨404, "Not Found", .dict []⟩ = .error ⟨404, "Not Found"⟩ := by
  refine ⟨rfl, ?_, rfl⟩
  have h1 : get_movie_details ⟨404, "Not Found", .dict []⟩ =
      .error ⟨404, "Not Found"⟩ := rfl
  rw [h1]
  exact fun h => Except.noConfusion h

/-- C2, amended. A 404 to getRatings or getRecommendations yields an empty
structure (empty dict, resp. empty results list) and never an error, while
getDetails treats 404 like any other non-success status; for every
endpoint, a non-success status other than 404 surfaces as an error carrying
the status and the response message; success statuses return the body. -/
theorem claim_c2_amended (r : Response) :
    (r.status = 404 →
      get_ratings r = .ok (.dict []) ∧
      get_tv_recommendations r = .ok (.dict [("results", .list [])]) ∧
      get_movie_recommendations r = .ok (.dict [("results", .list [])]) ∧
      get_movie_details r = .error ⟨404, r.reason⟩ ∧
      get_tv_details r = .error ⟨404, r.reason⟩) ∧
    (r.status ≠ 404 → 400 ≤ r.status →
      get_ratings r = .error ⟨r.status, r.reason⟩ ∧
      get_tv_recommendations r = .error ⟨r.status, r.reason⟩ ∧
      get_movie_recommendations r = .error ⟨r.status, r.reason⟩ ∧
      get_movie_details r = .error ⟨r.status, r.reason⟩ ∧
      get_tv_details r = .error ⟨r.status, r.reason⟩) ∧
    (r.status < 400 →
      get_ratings r = .ok r.body ∧
      get_movie_details r = .ok r.body ∧
      get_tv_details r = .ok r.body) := by
  refine ⟨?_, ?_, ?_⟩
  · intro h
    have hge : 400 ≤ r.status := by omega
    simp only [get_ratings, get_tv_recommendations, get_movie_recommendations,
      get_movie_details, get_tv_details, raise_for_status, if_pos h,
      if_pos hge, h]
    exact ⟨rfl, rfl, rfl, rfl, rfl⟩
  · intro h400 hge
    simp only [get_ratings, get_tv_recommendations, get_movie_recommendations,
      get_movie_details, get_tv_details, raise_for_status, if_neg h400,
      if_pos hge]
    exact ⟨rfl, rfl, rfl, rfl, rfl⟩
  · intro hlt
    have h404 : ¬ r.status = 404 := by omega
    have hng : ¬ 400 ≤ r.status := by omega
    simp only [get_ratings, get_tv_recommendations, get_movie_recommendations,
      get_movie_details, get_tv_details, raise_for_status, if_neg h404,
      if_neg hng]
    exact ⟨rfl, rfl, rfl⟩

/-- C2, witness for the amended theorem at concrete responses: a 404
ratings response yields an empty dict, a 500 ratings response yields an
error with status and message, and a 404 details response yields an error
rather than an empty result. -/
theorem claim_c2_witness :
    get_ratings ⟨404, "Not Found", .dict []⟩ = .ok (.dict []) ∧
    get_ratings ⟨500, "Server Error", .none⟩ = .error ⟨500, "Server Error"⟩ ∧
    get_movie_details ⟨404, "Not Found", .dict []⟩ = .error ⟨404, "Not Found"⟩ ∧
    get_ratings ⟨200, "OK", .dict [("criticsScore", .int 85)]⟩ =
      .ok (.dict [("criticsScore", .int 85)]) :=
  ⟨((claim_c2_amended ⟨404, "Not Found", .dict []⟩).1 rfl).1,
   ((claim_c2_amended ⟨500, "Server Error", .none⟩).2.1 (by decide) (by decide)).1,
   ((claim_c2_amended ⟨404, "Not Found", .dict []⟩).1 rfl).2.2.2.1,
   ((claim_c2_amended ⟨200, "OK", .dict [("criticsScore", .int 85)]⟩).2.2 (by decide)).1⟩

/-- C3: ratings extraction is total on the three claimed payload shapes.
An empty ratings object yields every rating field None with no failed
field access; the flat shape criticsScore 85 / audienceScore 70 yields
rt_tomato 85 and rt_popcorn 70; the nested imdb.value 7.5 /
rottenTomatoes.critics.score 90 shape yields imdb_rating 7.5 and
rt_tomato 90. -/
theorem claim_c3_ratings_total :
    extract_imdb_and_rt (.dict [("ratings", .dict [])]) =
      .ok ⟨.none, .none, .none, .none, .none, .none⟩ ∧
    extract_imdb_and_rt (.dict [("ratings",
        .dict [("criticsScore", .int 85), ("audienceScore", .int 70)])]) =
      .ok ⟨.none, .none, .none, .str "85", .str "70", .none⟩ ∧
    (extract_imdb_and_rt (.dict [("ratings",
        .dict [("imdb", .dict [("value", .str "7.5")]),
               ("rottenTomatoes", .dict [("critics", .dict [("score", .int 90)])])])])).toOption.map
      ExtractRes.imdb_rating = some (.str "7.5") ∧
    (extract_imdb_and_rt (.dict [("ratings",
        .dict [("imdb", .dict [("value", .str "7.5")]),
               ("rottenTomatoes", .dict [("critics", .dict [("score", .int 90)])])])])).toOption.map
      ExtractRes.rt_tomato = some (.str "90") :=
  ⟨rfl, rfl, rfl, rfl⟩

/-- C4, evaluation at the failing input. The claim (and spec shape list)
says a ratings.imdb block holding only the key rating (or only score)
yields imdb_rating equal to that value. The source computes
str(block.get("value")) or str(block.get("rating")) or
str(block.get("score")); str(None) is the truthy string None, so the
fallbacks are unreachable and the code yields the literal string None
instead of the stored rating — a slip, since the or-chain is plainly meant
to fall back. The rottenTomatoes half of the claim does hold (there the
or is applied to the raw values before str): a critics block with only
rating 42 yields rt_tomato 42, an audience block with only value 55 yields
rt_popcorn 55. -/
theorem claim_c4_imdb_fallback_eval :
    extract_imdb_and_rt (.dict [("ratings",
        .dict [("imdb", .dict [("rating", .str "7.5")])])]) =
      .ok ⟨.none, .str "None", .none, .none, .none, .none⟩ ∧
    extract_imdb_and_rt (.dict [("ratings",
        .dict [("imdb", .dict [("score", .int 8)])])]) =
      .ok ⟨.none, .str "None", .none, .none, .none, .none⟩ ∧
    (extract_imdb_and_rt (.dict [("ratings",
        .dict [("rottenTomatoes", .dict [("critics", .dict [("rating", .int 42)])])])])).toOption.map
      ExtractRes.rt_tomato = some (.str "42") ∧
    (extract_imdb_and_rt (.dict [("ratings",
        .dict [("rottenTomatoes", .dict [("audience", .dict [("value", .int 55)])])])])).toOption.map
      ExtractRes.rt_popcorn = some (.str "55") :=
  ⟨rfl, rfl, rfl, rfl⟩

/-! Helper lemmas for reducing the Except do-blocks of the embedded
handlers. -/

lemma exbind_ok {ε α β : Type} (a : α) (f : α → Except ε β) :
    (Except.ok a : Except ε α) >>= f = f a := rfl

lemma isDict_exists {v : PyVal} (h : isDict v = true) :
    ∃ kvs, v = .dict kvs := by
  cases v <;> simp [isDict] at h ⊢

lemma is_available_eq_spec (kvs : List (String × PyVal))
    (h2 : isDict (pyOr (pyGetD (.dict kvs) "mediaInfo") (.dict [])) = true) :
    is_available (.dict kvs) = .ok (availability_spec (status_of (.dict kvs))) := by
  obtain ⟨mk, hmk⟩ := isDict_exists h2
  unfold is_available status_of
  simp only [pyGetD] at hmk ⊢
  simp only [pyGetE, exbind_ok]
  rw [hmk]
  simp only [pyGetE, exbind_ok]
  cases (assocFind mk "status").getD .none <;> rfl

/-- C1: for a dict-shaped catalog item whose mediaInfo slot is absent or a
dict (the shapes on which the source runs without raising) and whose id is
present, availability is exactly the spec function of the mediaInfo.status
value (string: case-insensitive AVAILABLE; int: at least 4; other shape or
missing: not available), and the built keyboard has a Download button iff
the item is not available, a Recommendations button iff the defaulted media
type is movie or tv, and no action row at all when neither applies. -/
theorem claim_c1_availability_and_keyboard (item : PyVal)
    (h1 : isDict item = true)
    (h2 : isDict (pyOr (pyGetD item "mediaInfo") (.dict [])) = true)
    (h3 : isNoneV (pyGetD item "id") = false) :
    is_available item = .ok (availability_spec (status_of item)) ∧
    ∃ kb, build_keyboard item = .ok kb ∧
      has_download kb = !availability_spec (status_of item) ∧
      has_recs kb = (pyEqStr (item_media_type item) "movie" ||
        pyEqStr (item_media_type item) "tv") ∧
      (kb = Option.none ↔ (availability_spec (status_of item) = true ∧
        (pyEqStr (item_media_type item) "movie" ||
         pyEqStr (item_media_type item) "tv") = false)) := by
  obtain ⟨kvs, rfl⟩ := isDict_exists h1
  have hav := is_available_eq_spec kvs h2
  refine ⟨hav, ?_⟩
  rw [show (pyEqStr (item_media_type (.dict kvs)) "movie" ||
      pyEqStr (item_media_type (.dict kvs)) "tv") =
      (pyEqStr (item_media_type (.dict kvs)) "tv" ||
      pyEqStr (item_media_type (.dict kvs)) "movie") from Bool.or_comm _ _]
  unfold build_keyboard
  simp only [pyGetE, exbind_ok]
  simp only [item_media_type, pyGetD] at *
  cases hid : (assocFind kvs "id").getD PyVal.none
  case none => rw [hid] at h3; simp [isNoneV] at h3
  all_goals
    dsimp only
  all_goals
    rw [hav]
  all_goals
    simp only [exbind_ok]
  all_goals
    cases hA : availability_spec (status_of (.dict kvs)) <;>
      cases hM : (pyEqStr (pyOr ((assocFind kvs "mediaType").getD PyVal.none)
        (pyOr ((assocFind kvs "media_type").getD PyVal.none) (.str "movie"))) "tv" ||
        pyEqStr (pyOr ((assocFind kvs "mediaType").getD PyVal.none)
        (pyOr ((assocFind kvs "media_type").getD PyVal.none) (.str "movie"))) "movie") <;>
      simp [has_download, has_recs]

/-- C1, witness: a movie item with integer status 3 is not available and
its keyboard has both buttons; evaluation instances of the four claimed
status shapes are derived through the theorem at concrete items. -/
theorem claim_c1_witness :
    (is_available (.dict [("id", .int 1), ("mediaType", .str "movie"),
        ("mediaInfo", .dict [("status", .int 3)])]) = .ok false ∧
     ∃ kb, build_keyboard (.dict [("id", .int 1), ("mediaType", .str "movie"),
        ("mediaInfo", .dict [("status", .int 3)])]) = .ok kb ∧
       has_download kb = true ∧ has_recs kb = true) ∧
    (is_available (.dict [("id", .int 2), ("mediaType", .str "person"),
        ("mediaInfo", .dict [("status", .str "Available")])]) = .ok true ∧
     ∃ kb, build_keyboard (.dict [("id", .int 2), ("mediaType", .str "person"),
        ("mediaInfo", .dict [("status", .str "Available")])]) = .ok kb ∧
       kb = Option.none) := by
  have w1 := claim_c1_availability_and_keyboard
    (.dict [("id", .int 1), ("mediaType", .str "movie"),
      ("mediaInfo", .dict [("status", .int 3)])]) rfl rfl rfl
  have w2 := claim_c1_availability_and_keyboard
    (.dict [("id", .int 2), ("mediaType", .str "person"),
      ("mediaInfo", .dict [("status", .str "Available")])]) rfl rfl rfl
  obtain ⟨ha1, kb1, hkb1, hd1, hr1, -⟩ := w1
  obtain ⟨ha2, kb2, hkb2, -, -, hiff2⟩ := w2
  exact ⟨⟨ha1.trans rfl, kb1, hkb1, hd1.trans rfl, hr1.trans rfl⟩,
    ha2.trans rfl, kb2, hkb2, hiff2.mpr ⟨rfl, rfl⟩⟩

/-- C10: an item whose id field is absent or stored as null gets no action
row at all from the keyboard builder, regardless of availability or media
type. -/
theorem claim_c10_missing_id_keyboard (item : PyVal) (h1 : isDict item = true)
    (h2 : pyGetD item "id" = .none) :
    build_keyboard item = .ok Option.none := by
  obtain ⟨kvs, rfl⟩ := isDict_exists h1
  unfold build_keyboard
  simp only [pyGetE, pyGetD] at *
  rw [h2]
  rfl

/-- C10, witness: an unavailable movie item (which would otherwise get both
buttons) with no id yields no keyboard. -/
theorem claim_c10_witness :
    build_keyboard (.dict [("mediaType", .str "movie"),
      ("mediaInfo", .dict [("status", .int 0)])]) = .ok Option.none :=
  claim_c10_missing_id_keyboard _ rfl rfl

/-! Lemmas about caption lines for claim C5. -/

lemma str_append_ne_empty (s t : String) (h : s ≠ "") : s ++ t ≠ "" := by
  intro he
  apply h
  have hd := congrArg String.data he
  rw [String.data_append] at hd
  have h0 : s.data = [] := (List.append_eq_nil.mp hd).1
  cases s
  simp_all

lemma a_link_ne_empty (u l : String) : a_link u l ≠ "" := by
  unfold a_link
  apply str_append_ne_empty
  apply str_append_ne_empty
  apply str_append_ne_empty
  exact str_append_ne_empty _ _ (by decide)

/-- The rating-line region of an enriched caption: IMDb line, Tomatometer
line, Popcorn line, each present only when its datum passes the filter. -/
def rating_lines_of (rates : ExtractRes) : List String :=
  imdb_line_of rates ++ tomato_line_of rates ++ popcorn_line_of rates

lemma mem_imdb_line {r : ExtractRes} {l : String} (hl : l ∈ imdb_line_of r) :
    l ≠ "" := by
  unfold imdb_line_of at hl
  split at hl
  · simp at hl
    subst hl
    exact a_link_ne_empty _ _
  · simp at hl

lemma mem_tomato_line {r : ExtractRes} {l : String} (hl : l ∈ tomato_line_of r) :
    l ≠ "" := by
  unfold tomato_line_of at hl
  split at hl
  · simp at hl
    subst hl
    exact a_link_ne_empty _ _
  · simp at hl

lemma mem_popcorn_line {r : ExtractRes} {l : String}
    (hl : l ∈ popcorn_line_of r) : l ≠ "" := by
  unfold popcorn_line_of at hl
  split at hl
  · simp at hl
    subst hl
    exact a_link_ne_empty _ _
  · simp at hl

/-- C5, counterexample. The claim says a block whose data is absent is
omitted entirely, with no empty placeholder lines other than the mandated
blank separators. On a details payload carrying a trailer but no ratings,
the produced caption contains two consecutive blank lines between the
availability line and the trailer link: the separator that should precede
the (absent) rating block is emitted unconditionally, in addition to the
trailer's own separator. -/
theorem claim_c5_counterexample :
    append_enrichment_lines
      ["<b>Dune</b> - (movie)", "", "❌ Status: not in library"]
      (.dict [("relatedVideos", .list [.dict [("site", .str "YouTube"),
        ("type", .str "Trailer"), ("url", .str "https://youtu.be/x")]])]) =
    .ok ["<b>Dune</b> - (movie)", "", "❌ Status: not in library", "", "",
      "<a href=\"https://youtu.be/x\">🎬 Trailer</a>"] := rfl

/-- C5, amended. The caption is an ordered append-only sequence of blocks:
the base caption starts with the title line and ends with the availability
line; enrichment appends, in order, one blank separator, the rating lines
(each nonempty, so rating lines never precede the availability line and
contain no empty placeholders), and the trailer block, which is last when
present; an absent rating line or trailer contributes no lines — except
that the blank separator after the availability block is emitted even when
no rating lines follow, so a caption with no rating data keeps one dangling
blank line (two consecutive blanks when a trailer follows). -/
theorem claim_c5_caption_order :
    (∀ item tyt avail ls,
      extract_title_year_type item = .ok tyt →
      is_available item = .ok avail →
      build_caption_lines item = .ok ls →
      ls.head? = some ("<b>" ++ pyStr tyt.1 ++ "</b> - (" ++ tyt.2.2 ++ ")") ∧
      ls.getLast? = some ((if avail then "✅" else "❌") ++ " Status: " ++
        (if avail then "in library" else "not in library"))) ∧
    (∀ base details rates trailer,
      extract_imdb_and_rt details = .ok rates →
      extract_trailer_url details = .ok trailer →
      append_enrichment_lines base details =
        .ok (base ++ [""] ++ rating_lines_of rates ++ trailer_block_of trailer)) ∧
    (∀ rates, ∀ l ∈ rating_lines_of rates, l ≠ "") ∧
    trailer_block_of Option.none = [] ∧
    (∀ t, trailer_block_of (some t) = ["", a_link t "🎬 Trailer"]) := by
  refine ⟨?_, ?_, ?_, rfl, fun t => rfl⟩
  · intro item tyt avail ls h1 h2 h3
    unfold build_caption_lines at h3
    rw [h1] at h3
    simp only [exbind_ok] at h3
    rw [h2] at h3
    simp only [exbind_ok] at h3
    injection h3 with h3
    subst h3
    cases tyt.2.1 <;> simp
  · intro base details rates trailer h1 h2
    unfold append_enrichment_lines
    rw [h1]
    simp only [exbind_ok]
    rw [h2]
    simp only [exbind_ok]
    unfold rating_lines_of
    simp [List.append_assoc]
  · intro rates l hl
    unfold rating_lines_of at hl
    simp only [List.mem_append] at hl
    rcases hl with (hl | hl) | hl
    · exact mem_imdb_line hl
    · exact mem_tomato_line hl
    · exact mem_popcorn_line hl

/-- C5, witness for the amended theorem: a concrete movie caption has the
title line first and the availability line last; a flat-ratings enrichment
of a one-line base yields exactly the base, the separator, and the two
nonempty rating lines with no trailer block. -/
theorem claim_c5_witness :
    (["<b>Dune</b> - (movie)", "Year - 2021", "",
      "❌ Status: not in library"] : List String).head? =
      some "<b>Dune</b> - (movie)" ∧
    (["<b>Dune</b> - (movie)", "Year - 2021", "",
      "❌ Status: not in library"] : List String).getLast? =
      some "❌ Status: not in library" ∧
    append_enrichment_lines ["B"]
      (.dict [("ratings", .dict [("criticsScore", .int 85),
        ("audienceScore", .int 70)])]) =
      .ok (["B"] ++ [""] ++
        rating_lines_of ⟨.none, .none, .none, .str "85", .str "70", .none⟩ ++
        trailer_block_of Option.none) ∧
    a_link "https://www.rottentomatoes.com/" "🍅 Tomatometer : 85%" ≠ "" := by
  have h1 := claim_c5_caption_order.1
    (.dict [("title", .str "Dune"), ("mediaType", .str "movie"),
      ("releaseDate", .str "2021-09-15")])
    (.str "Dune", some "2021", "movie") false
    ["<b>Dune</b> - (movie)", "Year - 2021", "", "❌ Status: not in library"]
    rfl rfl rfl
  have h2 := claim_c5_caption_order.2.1 ["B"]
    (.dict [("ratings", .dict [("criticsScore", .int 85),
      ("audienceScore", .int 70)])])
    ⟨.none, .none, .none, .str "85", .str "70", .none⟩ Option.none rfl rfl
  have h3 := claim_c5_caption_order.2.2.1
    ⟨.none, .none, .none, .str "85", .str "70", .none⟩
    (a_link "https://www.rottentomatoes.com/" "🍅 Tomatometer : 85%")
    (by decide)
  exact ⟨h1.1.trans rfl, h1.2.trans rfl, h2, h3⟩

/-- C6: on a Download tap by the owner with a well-formed token, a create
success followed by an approve failure still removes the action buttons and
sends the success confirmation (the approve failure is only logged), while
a create failure reports the error and leaves the buttons untouched; the
request id is accepted from a top-level id field or from a nested
request.id field. -/
theorem claim_c6_download_flow
    (cfg : Option String) (uid : Option Int) (dta a mt idstr : String)
    (n k : Int) (created rid : PyVal) (e ea : String)
    (dOf rOf : PyVal → Int → Except String PyVal)
    (recRes av : Except String PyVal) (img : String) (is4k : Bool)
    (hown : is_owner cfg uid = true)
    (hpre : strStarts dta "req|" = true)
    (hsp : split3 dta = some (a, mt, idstr))
    (hn : pyIntOfString idstr = some n)
    (hid : request_id_of created = .ok rid)
    (hrid : isNoneV rid = false)
    (hk : k ≠ 0) :
    on_callback cfg uid (some dta) is4k dOf rOf recRes (.ok created) (.error ea) img =
      [.answer_callback, .create_call n mt is4k, .approve_call rid is4k,
       .log_event "Approve failed", .clear_markup,
       .reply_text "Request submitted and approved ✅" Option.none false] ∧
    on_callback cfg uid (some dta) is4k dOf rOf recRes (.error e) av img =
      [.answer_callback, .create_call n mt is4k, .log_event "Request failed",
       .reply_text ("Request error: " ++ e) Option.none false] ∧
    request_id_of (.dict [("id", .int k)]) = .ok (.int k) ∧
    request_id_of (.dict [("request", .dict [("id", .int k)])]) = .ok (.int k) := by
  refine ⟨?_, ?_, ?_, rfl⟩
  · unfold on_callback req_branch
    simp only [hown, Bool.not_true, Bool.false_eq_true, if_false, Option.getD,
      hpre, if_true, hsp, hn, hid]
    cases rid <;> simp_all [isNoneV]
  · unfold on_callback req_branch
    simp only [hown, Bool.not_true, Bool.false_eq_true, if_false, Option.getD,
      hpre, if_true, hsp, hn]
  · unfold request_id_of
    simp [pyGetD, assocFind, truthy, isDict, hk]

/-- C6, witness: a concrete tap on req with media id 123 whose create
returns id 7 and whose approve fails still clears the buttons and confirms;
a failing create reports the error with no button edit. -/
theorem claim_c6_witness :
    on_callback (some "1") (some 1) (some "req|movie|123") false
      (fun _ _ => .ok (.dict [])) (fun _ _ => .ok (.dict []))
      (.ok (.dict [])) (.ok (.dict [("id", .int 7)])) (.error "boom") "img" =
      [.answer_callback, .create_call 123 "movie" false,
       .approve_call (.int 7) false, .log_event "Approve failed",
       .clear_markup,
       .reply_text "Request submitted and approved ✅" Option.none false] ∧
    on_callback (some "1") (some 1) (some "req|movie|123") false
      (fun _ _ => .ok (.dict [])) (fun _ _ => .ok (.dict []))
      (.ok (.dict [])) (.error "create failed") (.ok (.dict [])) "img" =
      [.answer_callback, .create_call 123 "movie" false,
       .log_event "Request failed",
       .reply_text ("Request error: " ++ "create failed") Option.none false] ∧
    request_id_of (.dict [("id", .int 5)]) = .ok (.int 5) ∧
    request_id_of (.dict [("request", .dict [("id", .int 5)])]) = .ok (.int 5) :=
  claim_c6_download_flow (some "1") (some 1) "req|movie|123" "req" "movie" "123"
    123 5 (.dict [("id", .int 7)]) (.int 7) "create failed" "boom"
    (fun _ _ => .ok (.dict [])) (fun _ _ => .ok (.dict []))
    (.ok (.dict [])) (.ok (.dict [])) "img" false
    rfl rfl rfl rfl rfl rfl (by decide)

/-- C7: malformed user input is rejected locally with zero upstream calls —
a whitespace-only query is answered with the empty-query message and the
trace holds no client call; an action token whose id part does not parse as
an integer is answered with Invalid identifier (with the buttons cleared on
the req path, untouched on the rec path) and the trace holds no client
call. -/
theorem claim_c7_local_validation :
    (∀ cfg uid (text : Option String) sr dOf rOf img,
      is_owner cfg uid = true →
      pyTrim (text.getD "") = "" →
      on_query cfg uid text sr dOf rOf img =
        [.reply_text "Empty query. Please enter a title." Option.none false] ∧
      (on_query cfg uid text sr dOf rOf img).all
        (fun ef => !is_client_call ef) = true) ∧
    (∀ cfg uid dta a mt idstr is4k dOf rOf recRes cr ar img,
      is_owner cfg uid = true →
      strStarts dta "req|" = true →
      split3 dta = some (a, mt, idstr) →
      pyIntOfString idstr = Option.none →
      on_callback cfg uid (some dta) is4k dOf rOf recRes cr ar img =
        [.answer_callback, .clear_markup,
         .reply_text "Invalid identifier." Option.none false] ∧
      (on_callback cfg uid (some dta) is4k dOf rOf recRes cr ar img).all
        (fun ef => !is_client_call ef) = true) ∧
    (∀ cfg uid dta a mt idstr is4k dOf rOf recRes cr ar img,
      is_owner cfg uid = true →
      strStarts dta "req|" = false →
      strStarts dta "rec|" = true →
      split3 dta = some (a, mt, idstr) →
      pyIntOfString idstr = Option.none →
      on_callback cfg uid (some dta) is4k dOf rOf recRes cr ar img =
        [.answer_callback,
         .reply_text "Invalid identifier." Option.none false] ∧
      (on_callback cfg uid (some dta) is4k dOf rOf recRes cr ar img).all
        (fun ef => !is_client_call ef) = true) := by
  refine ⟨?_, ?_, ?_⟩
  · intro cfg uid text sr dOf rOf img hown hq
    have he : on_query cfg uid text sr dOf rOf img =
        [.reply_text "Empty query. Please enter a title." Option.none false] := by
      unfold on_query
      simp only [hown, Bool.not_true, Bool.false_eq_true, if_false, hq]
      simp
    exact ⟨he, by rw [he]; rfl⟩
  · intro cfg uid dta a mt idstr is4k dOf rOf recRes cr ar img hown hpre hsp hn
    have he : on_callback cfg uid (some dta) is4k dOf rOf recRes cr ar img =
        [.answer_callback, .clear_markup,
         .reply_text "Invalid identifier." Option.none false] := by
      unfold on_callback req_branch
      simp only [hown, Bool.not_true, Bool.false_eq_true, if_false, Option.getD,
        hpre, if_true, hsp, hn]
    exact ⟨he, by rw [he]; rfl⟩
  · intro cfg uid dta a mt idstr is4k dOf rOf recRes cr ar img hown hpre1 hpre2
      hsp hn
    have he : on_callback cfg uid (some dta) is4k dOf rOf recRes cr ar img =
        [.answer_callback,
         .reply_text "Invalid identifier." Option.none false] := by
      unfold on_callback rec_branch
      simp only [hown, Bool.not_true, Bool.false_eq_true, if_false, Option.getD,
        hpre1, hpre2, if_true, hsp, hn]
    exact ⟨he, by rw [he]; rfl⟩

/-- C7, witness: a whitespace-only query and the literal token
req movie notanumber at concrete inputs. -/
theorem claim_c7_witness :
    on_query Option.none Option.none (some "   ") (.ok (.dict []))
      (fun _ _ => .ok (.dict [])) (fun _ _ => .ok (.dict [])) "img" =
      [.reply_text "Empty query. Please enter a title." Option.none false] ∧
    on_callback Option.none Option.none (some "req|movie|notanumber") false
      (fun _ _ => .ok (.dict [])) (fun _ _ => .ok (.dict []))
      (.ok (.dict [])) (.ok (.dict [])) (.ok (.dict [])) "img" =
      [.answer_callback, .clear_markup,
       .reply_text "Invalid identifier." Option.none false] ∧
    on_callback Option.none Option.none (some "rec|movie|notanumber") false
      (fun _ _ => .ok (.dict [])) (fun _ _ => .ok (.dict []))
      (.ok (.dict [])) (.ok (.dict [])) (.ok (.dict [])) "img" =
      [.answer_callback,
       .reply_text "Invalid identifier." Option.none false] :=
  ⟨(claim_c7_local_validation.1 Option.none Option.none (some "   ")
      (.ok (.dict [])) (fun _ _ => .ok (.dict [])) (fun _ _ => .ok (.dict []))
      "img" rfl rfl).1,
   (claim_c7_local_validation.2.1 Option.none Option.none "req|movie|notanumber"
      "req" "movie" "notanumber" false (fun _ _ => .ok (.dict []))
      (fun _ _ => .ok (.dict [])) (.ok (.dict [])) (.ok (.dict []))
      (.ok (.dict [])) "img" rfl rfl rfl rfl).1,
   (claim_c7_local_validation.2.2 Option.none Option.none "rec|movie|notanumber"
      "rec" "movie" "notanumber" false (fun _ _ => .ok (.dict []))
      (fun _ _ => .ok (.dict [])) (.ok (.dict [])) (.ok (.dict []))
      (.ok (.dict [])) "img" rfl rfl rfl rfl rfl).1⟩

/-- C8, counterexample. The claim says a text message from a non-matching
caller is answered with a refusal message: at a concrete mismatched caller,
on_query produces no effects at all — the text is silently dropped (only
the start command handler sends the refusal). -/
theorem claim_c8_counterexample :
    is_owner (some "123") (some 456) = false ∧
    on_query (some "123") (some 456) (some "dune") (.ok (.dict []))
      (fun _ _ => .ok (.dict [])) (fun _ _ => .ok (.dict [])) "img" = [] :=
  ⟨rfl, rfl⟩

/-- C8, amended. With no owner configured (unset or empty) every caller is
authorized; with a configured owner id, a non-matching caller's plain text
message is silently ignored (no reply of any kind), a button tap is
acknowledged silently with no message, and the start command is answered
with the refusal message; a matching caller is authorized. -/
theorem claim_c8_auth_behavior :
    (∀ uid, is_owner Option.none uid = true) ∧
    (∀ uid, is_owner (some "") uid = true) ∧
    (∀ cfg oid uid, pyIntOfString cfg = some oid → uid ≠ some oid →
      is_owner (some cfg) uid = false) ∧
    (∀ cfg oid uid, pyIntOfString cfg = some oid → uid = some oid →
      is_owner (some cfg) uid = true) ∧
    (∀ cfg uid text sr dOf rOf img, is_owner cfg uid = false →
      on_query cfg uid text sr dOf rOf img = []) ∧
    (∀ cfg uid cb is4k dOf rOf recRes cr ar img, is_owner cfg uid = false →
      on_callback cfg uid cb is4k dOf rOf recRes cr ar img = [.answer_callback]) ∧
    (∀ cfg uid, is_owner cfg uid = false →
      on_start cfg uid =
        [.reply_text "This bot is restricted to the owner." Option.none false]) := by
  refine ⟨fun uid => rfl, fun uid => rfl, ?_, ?_, ?_, ?_, ?_⟩
  · intro cfg oid uid hp hne
    unfold is_owner
    by_cases hc : cfg = ""
    · subst hc
      rw [show pyIntOfString "" = Option.none from rfl] at hp
      exact Option.noConfusion hp
    · simp only [if_neg hc, hp]
      exact beq_eq_false_iff_ne.mpr hne
  · intro cfg oid uid hp heq
    unfold is_owner
    by_cases hc : cfg = ""
    · simp [hc]
    · simp only [if_neg hc, hp]
      exact beq_iff_eq.mpr heq
  · intro cfg uid text sr dOf rOf img h
    unfold on_query
    simp [h]
  · intro cfg uid cb is4k dOf rOf recRes cr ar img h
    unfold on_callback
    simp [h]
  · intro cfg uid h
    unfold on_start
    simp [h]

/-- C8, witness for the amended theorem at a concrete owner configuration
123 with callers 456 (mismatched) and 123 (matching). -/
theorem claim_c8_witness :
    is_owner Option.none (some 99) = true ∧
    is_owner (some "") (some 99) = true ∧
    is_owner (some "123") (some 456) = false ∧
    is_owner (some "123") (some 123) = true ∧
    on_query (some "123") (some 456) (some "dune") (.ok (.dict []))
      (fun _ _ => .ok (.dict [])) (fun _ _ => .ok (.dict [])) "img" = [] ∧
    on_callback (some "123") (some 456) (some "req|movie|1") false
      (fun _ _ => .ok (.dict [])) (fun _ _ => .ok (.dict []))
      (.ok (.dict [])) (.ok (.dict [])) (.ok (.dict [])) "img" =
      [.answer_callback] ∧
    on_start (some "123") (some 456) =
      [.reply_text "This bot is restricted to the owner." Option.none false] := by
  have h := claim_c8_auth_behavior
  have hof : is_owner (some "123") (some 456) = false :=
    h.2.2.1 "123" 123 (some 456) rfl (by decide)
  exact ⟨h.1 (some 99), h.2.1 (some 99), hof,
    h.2.2.2.1 "123" 123 (some 123) rfl rfl,
    h.2.2.2.2.1 _ _ (some "dune") (.ok (.dict [])) (fun _ _ => .ok (.dict []))
      (fun _ _ => .ok (.dict [])) "img" hof,
    h.2.2.2.2.2.1 _ _ (some "req|movie|1") false (fun _ _ => .ok (.dict []))
      (fun _ _ => .ok (.dict [])) (.ok (.dict [])) (.ok (.dict []))
      (.ok (.dict [])) "img" hof,
    h.2.2.2.2.2.2 _ _ hof⟩

/-! Card-count lemmas for claim C9. -/

lemma card_count_append (a b : List Effect) :
    card_count (a ++ b) = card_count a + card_count b := by
  simp [card_count, List.filter_append]

lemma fetch_details_no_cards (dOf rOf : PyVal → Int → Except String PyVal)
    (mtv item : PyVal) : card_count (fetch_details dOf rOf mtv item).1 = 0 := by
  unfold fetch_details
  repeat' split
  all_goals rfl

lemma send_phase_cards_le (img : String) (poster : PyVal)
    (cap : Except String String) (kbr : Except String (Option Markup)) :
    card_count (send_phase img poster cap kbr).1 ≤ 1 := by
  unfold send_phase
  repeat' split
  all_goals simp [card_count, is_card]

lemma item_effects_cards_le (dOf rOf : PyVal → Int → Except String PyVal)
    (img : String) (mtv item kb : PyVal) :
    card_count (item_effects dOf rOf img mtv item kb).1 ≤ 1 := by
  have h0 := fetch_details_no_cards dOf rOf mtv item
  unfold item_effects
  repeat' split
  all_goals first
    | (rw [card_count_append, h0]; simp [send_phase_cards_le])
    | simp [card_count]

lemma query_loop_cards_le (dOf rOf : PyVal → Int → Except String PyVal)
    (img : String) : ∀ items : List PyVal,
    card_count (query_loop dOf rOf img items) ≤ items.length := by
  intro items
  induction items with
  | nil => simp [query_loop, card_count]
  | cons it rest ih =>
    unfold query_loop
    split
    all_goals rename_i heq
    all_goals have h1 := item_effects_cards_le dOf rOf img (item_media_type it) it it
    all_goals rw [heq] at h1
    all_goals dsimp only at h1
    · rw [card_count_append]
      simp only [List.length_cons]
      omega
    · simp only [List.length_cons]
      omega

/-- C9: every on_query trace renders at most ten cards (an HTML caption
send per rendered item), and the rendered list is the movie/tv-filtered
results when that filter keeps anything (so every rendered item is a movie
or tv), falling back to the unfiltered results when the filter empties the
set; in both cases truncated to ten. -/
theorem claim_c9_result_selection :
    (∀ cfg uid (text : Option String) sr dOf rOf img,
      card_count (on_query cfg uid text sr dOf rOf img) ≤ 10) ∧
    (∀ results : List PyVal, (results.filter is_movie_tv).isEmpty = false →
      select_results results = (results.filter is_movie_tv).take 10 ∧
      ∀ r ∈ select_results results, is_movie_tv r = true) ∧
    (∀ results : List PyVal, (results.filter is_movie_tv).isEmpty = true →
      select_results results = results.take 10) := by
  refine ⟨?_, ?_, ?_⟩
  · intro cfg uid text sr dOf rOf img
    have hsel : ∀ results : List PyVal,
        card_count (query_loop dOf rOf img (select_results results)) ≤ 10 := by
      intro results
      calc card_count (query_loop dOf rOf img (select_results results)) ≤
          (select_results results).length := query_loop_cards_le _ _ _ _
        _ ≤ 10 := by simp [select_results, List.length_take]
    unfold on_query
    repeat' split
    all_goals try simp [card_count, is_card]
    all_goals exact hsel _
  · intro results hfe
    constructor
    · unfold select_results
      rw [hfe]
      simp
    · intro r hr
      unfold select_results at hr
      rw [hfe] at hr
      simp at hr
      have := List.take_subset 10 (results.filter is_movie_tv) hr
      exact (List.mem_filter.mp this).2
  · intro results hfe
    unfold select_results
    rw [hfe]
    simp

/-- C9, witness: a concrete mixed movie/person list is filtered to its
movie part, a person-only list falls back unfiltered, and a concrete
on_query trace renders at most ten cards. -/
theorem claim_c9_witness :
    card_count (on_query Option.none Option.none (some "dune")
      (.ok (.dict [])) (fun _ _ => .ok (.dict []))
      (fun _ _ => .ok (.dict [])) "img") ≤ 10 ∧
    select_results [.dict [("mediaType", .str "movie"), ("id", .int 1)],
        .dict [("mediaType", .str "person"), ("id", .int 2)]] =
      ([PyVal.dict [("mediaType", .str "movie"), ("id", .int 1)],
        PyVal.dict [("mediaType", .str "person"), ("id", .int 2)]].filter
          is_movie_tv).take 10 ∧
    select_results [.dict [("mediaType", .str "person"), ("id", .int 2)]] =
      [PyVal.dict [("mediaType", .str "person"), ("id", .int 2)]].take 10 :=
  ⟨claim_c9_result_selection.1 Option.none Option.none (some "dune")
      (.ok (.dict [])) (fun _ _ => .ok (.dict []))
      (fun _ _ => .ok (.dict [])) "img",
   (claim_c9_result_selection.2.1
      [PyVal.dict [("mediaType", .str "movie"), ("id", .int 1)],
       PyVal.dict [("mediaType", .str "person"), ("id", .int 2)]] rfl).1,
   claim_c9_result_selection.2.2
      [PyVal.dict [("mediaType", .str "person"), ("id", .int 2)]] rfl⟩
